import Mathlib

/-!
Verification development for the Review Board excerpt consisting of
`reviewboard/hostingsvcs/bitbucket.py` and `reviewboard/datagrids/grids.py`.

The Python code is shallowly embedded: pure computations become Lean
functions, raised exceptions become `Except` errors, and effects performed
through external collaborators (the HTTP client, the Django cache,
`json.loads`, `int()`, `urllib.quote`, `encrypt_password`,
`get_review_request_id`, `close_all_review_requests`) are represented by
function parameters or by recording the interaction in the result.
-/

namespace RB

/-- A JSON value as produced by `json.loads`: the webhook handler receives an
arbitrary such value, so JSON is modelled structurally.  Numbers are modelled
as integers (no claim depends on fractional payload numbers). -/
inductive JValue where
  | null : JValue
  | bool : Bool → JValue
  | num : Int → JValue
  | str : String → JValue
  | arr : List JValue → JValue
  | obj : List (String × JValue) → JValue
  deriving BEq, Inhabited

/-- Python exceptions raised by dynamic-typing violations in the embedded
code. -/
inductive PyErr where
  | attributeError : PyErr
  | typeError : PyErr
  | keyError : String → PyErr
  deriving BEq, DecidableEq

/-- Python truthiness of a JSON-decoded value: `None`, `False`, `0`, `''`,
`[]` and the empty dict are falsy, everything else is truthy. -/
def truthy : JValue → Bool
  | .null => false
  | .bool b => b
  | .num n => n != 0
  | .str s => s != ""
  | .arr xs => !xs.isEmpty
  | .obj kvs => !kvs.isEmpty

/-- Python `repr()` of a JSON-decoded value (string escaping inside `repr` of
strings is not modelled; no claim depends on it). -/
def pyRepr : JValue → String
  | .null => "None"
  | .bool true => "True"
  | .bool false => "False"
  | .num n => toString n
  | .str s => "\x27" ++ s ++ "\x27"
  | .arr xs => "[" ++ String.intercalate ", " (xs.attach.map (fun x => pyRepr x.1)) ++ "]"
  | .obj kvs =>
      "\x7b" ++
        String.intercalate ", "
          (kvs.attach.map (fun p => "\x27" ++ p.1.1 ++ "\x27: " ++ pyRepr p.1.2)) ++
      "\x7d"
decreasing_by
  all_goals simp_wf
  · have := List.sizeOf_lt_of_mem x.2
    omega
  · have h := List.sizeOf_lt_of_mem p.2
    have h2 : sizeOf p.1.2 < sizeOf p.1 := by
      obtain ⟨a, b⟩ := p.1
      simp only [Prod.mk.sizeOf_spec]
      omega
    omega

/-- Python `str()` / `unicode()` of a JSON-decoded value: identity on strings,
`repr` otherwise. -/
def pyStr : JValue → String
  | .str s => s
  | v => pyRepr v

/-- Python `v.get(k, d)` on a JSON-decoded value: a dictionary lookup with a
default; any non-dict value has no `get` attribute and raises
`AttributeError`.  `json.loads` keeps the last of duplicate keys, so the
lookup takes the last binding. -/
def py_getD (v : JValue) (k : String) (d : JValue) : Except PyErr JValue :=
  match v with
  | .obj kvs =>
      match kvs.reverse.lookup k with
      | some x => .ok x
      | none => .ok d
  | _ => .error .attributeError

/-- Python `v[k]` on a JSON-decoded dict; `KeyError` when absent,
`TypeError` on non-dicts (the embedded code only indexes values it has
checked with `in`, so the non-dict case is never reached there). -/
def py_getitem (v : JValue) (k : String) : Except PyErr JValue :=
  match v with
  | .obj kvs =>
      match kvs.reverse.lookup k with
      | some x => .ok x
      | none => .error (.keyError k)
  | _ => .error .typeError

/-- Python iteration `for x in v` over a JSON-decoded value: lists yield their
elements, strings their one-character substrings, dicts their keys; other
values are not iterable. -/
def py_iter (v : JValue) : Except PyErr (List JValue) :=
  match v with
  | .arr xs => .ok xs
  | .str s => .ok (s.toList.map (fun c => .str (String.singleton c)))
  | .obj kvs => .ok (kvs.map (fun p => .str p.1))
  | _ => .error .typeError

/-- Python `v[:7]` on a JSON-decoded value: defined for strings and lists,
`TypeError` otherwise (in particular for `None`). -/
def py_slice7 (v : JValue) : Except PyErr JValue :=
  match v with
  | .str s => .ok (.str (s.take 7))
  | .arr xs => .ok (.arr (xs.take 7))
  | _ => .error .typeError

/-- Python `needle in v` for a string needle: key membership for dicts,
element membership for lists, substring test for strings, `TypeError`
otherwise. -/
def py_in (needle : String) (v : JValue) : Except PyErr Bool :=
  match v with
  | .obj kvs => .ok (kvs.any (fun p => p.1 == needle))
  | .arr xs => .ok (xs.any (fun x => x == JValue.str needle))
  | .str s => .ok (if needle = "" then true else (s.splitOn needle).length > 1)
  | _ => .error .typeError

/-- Python `v.startswith(p)`: defined on strings only; any other value has no
`startswith` attribute. -/
def py_startswith (v : JValue) (p : String) : Except PyErr Bool :=
  match v with
  | .str s => .ok (s.startsWith p)
  | _ => .error .attributeError

/-- The review-request-id-to-commits map of the webhook handler, embedded as
an insertion-ordered association list (a `defaultdict(list)` keyed by
`Option Nat`: `none` is the Python key `None`). -/
def RRMap := List (Option Nat × List String)

instance : BEq RRMap := inferInstanceAs (BEq (List (Option Nat × List String)))
instance : DecidableEq RRMap := inferInstanceAs (DecidableEq (List (Option Nat × List String)))

/-- The embedded `defaultdict(list)` append: `m[k].append(v)`, creating the key at the end
of the insertion order when it is new. -/
def appendEntry (m : List (Option Nat × List String)) (k : Option Nat) (v : String) :
    List (Option Nat × List String) :=
  if m.any (fun p => p.1 == k) then
    m.map (fun p => if p.1 == k then (p.1, p.2 ++ [v]) else p)
  else
    m ++ [(k, [v])]

/-- The body of the `for commit in commits` loop of
`_get_review_request_id_to_commits_map`, applied to each commit in turn.
`grri` is the external `get_review_request_id(commit_message, server_url,
commit_hash, repository)` helper, abstracted to its two per-commit
arguments. -/
def processCommits (grri : JValue → JValue → Option Nat) :
    List JValue → List (Option Nat × List String) →
    Except PyErr (List (Option Nat × List String))
  | [], acc => .ok acc
  | commit :: rest, acc => do
      let commit_hash ← py_getD commit "raw_node" .null
      let commit_message ← py_getD commit "message" .null
      let branch_name ← py_getD commit "branch" .null
      if truthy branch_name then
        let sliced ← py_slice7 commit_hash
        let review_request_id := grri commit_message commit_hash
        processCommits grri rest
          (appendEntry acc review_request_id
            (pyStr branch_name ++ " (" ++ pyStr sliced ++ ")"))
      else
        processCommits grri rest acc

/-- The embedded `_get_review_request_id_to_commits_map(payload, server_url, repository)`:
returns the map from review request IDs to commit descriptions, or the Python
exception the handler would raise on a payload of an unexpected shape. -/
def _get_review_request_id_to_commits_map (grri : JValue → JValue → Option Nat)
    (payload : JValue) : Except PyErr (List (Option Nat × List String)) := do
  let commits ← py_getD payload "commits" (.arr [])
  let items ← py_iter commits
  processCommits grri items []

/-- The HTTP response of the webhook view: `HttpResponse()` (200),
`HttpResponseBadRequest(body)` (400), or a Python exception escaping the view
(which Django turns into a 500 server error). -/
inductive HookResponse where
  | ok : HookResponse
  | badRequest : String → HookResponse
  | serverError : PyErr → HookResponse
  deriving BEq, DecidableEq

/-- The observable outcome of `post_receive_hook_close_submitted`: the HTTP
response, and the argument of the `close_all_review_requests` call when one
was made (`none` when no review request is closed). -/
structure HookResult where
  response : HookResponse
  closedCalls : Option (List (Option Nat × List String))
  deriving BEq, DecidableEq

/-- The embedded `post_receive_hook_close_submitted`, for a POST request that reached the
view (`get_repository_for_hook` succeeded).  `jloads` is the external
`json.loads`, returning `none` on a `ValueError`; `payloadField` is
`request.POST['payload']` when the field is present. -/
def post_receive_hook_close_submitted (jloads : String → Option JValue)
    (grri : JValue → JValue → Option Nat) (payloadField : Option String) : HookResult :=
  match payloadField with
  | none => ⟨.badRequest "Missing payload", none⟩
  | some s =>
      match jloads s with
      | none => ⟨.badRequest "Invalid payload format", none⟩
      | some payload =>
          match _get_review_request_id_to_commits_map grri payload with
          | .error e => ⟨.serverError e, none⟩
          | .ok m =>
              if m.isEmpty then ⟨.ok, none⟩
              else ⟨.ok, some m⟩

/-! ### `Bitbucket.authorize` -/

/-- The hosting account as `authorize` observes it: the in-memory
`account.data['password']` entry and the snapshot last persisted by
`account.save()`. -/
structure Account where
  data_password : Option String
  saved_password : Option String
  deriving BEq, DecidableEq

/-- The outcome of the `try` body of `authorize` (the test request
`_api_get(self._build_api_url('user'))` followed by `account.save()`), which
is performed against external collaborators. -/
inductive AuthTryOutcome where
  | success : AuthTryOutcome
  | hostingServiceErrorRaised : Option Int → AuthTryOutcome
  | otherExceptionRaised : AuthTryOutcome
  deriving BEq, DecidableEq

/-- What `authorize` raises, if anything. -/
inductive AuthorizeResult where
  | ok : AuthorizeResult
  | authorizationError : AuthorizeResult
  | hostingServiceError : Option Int → AuthorizeResult
  | otherException : AuthorizeResult
  deriving BEq, DecidableEq

/-- The embedded `Bitbucket.authorize(username, password)`: stores the encrypted password
in `account.data`, runs the test request and saves on success; on failure the
freshly stored password is deleted again and the error propagates, with
`HostingServiceError`s carrying HTTP code 401 or 403 replaced by an
`AuthorizationError` (`_raise_auth_error`).  `encrypt` is the external
`encrypt_password` utility. -/
def authorize (encrypt : String → String) (outcome : AuthTryOutcome)
    (password : String) (acct : Account) : Account × AuthorizeResult :=
  let acct1 : Account := { acct with data_password := some (encrypt password) }
  match outcome with
  | .success =>
      ({ acct1 with saved_password := acct1.data_password }, .ok)
  | .hostingServiceErrorRaised http_code =>
      let acct2 : Account := { acct1 with data_password := none }
      if http_code = some 401 ∨ http_code = some 403 then
        (acct2, .authorizationError)
      else
        (acct2, .hostingServiceError http_code)
  | .otherExceptionRaised =>
      ({ acct1 with data_password := none }, .otherException)

/-! ### Per-plan repository name and owner -/

/-- Errors raised by the `_raw` plan helpers: `InvalidPlanError` for an
unknown plan, and Python `KeyError` when the `extra_data` dict lacks the
accessed field. -/
inductive PlanErr where
  | invalidPlanError : String → PlanErr
  | extraDataKeyError : String → PlanErr
  deriving BEq, DecidableEq

/-- The embedded `extra_data[k]` where `extra_data` is a string-valued dict. -/
def extraDataItem (extra_data : String → Option String) (k : String) :
    Except PlanErr String :=
  match extra_data k with
  | some v => .ok v
  | none => .error (.extraDataKeyError k)

/-- The embedded `Bitbucket._get_repository_name_raw(plan, extra_data)`. -/
def _get_repository_name_raw (plan : String) (extra_data : String → Option String) :
    Except PlanErr String :=
  if plan = "personal" then extraDataItem extra_data "bitbucket_repo_name"
  else if plan = "team" then extraDataItem extra_data "bitbucket_team_repo_name"
  else if plan = "other-user" then extraDataItem extra_data "bitbucket_other_user_repo_name"
  else .error (.invalidPlanError plan)

/-- The embedded `Bitbucket._get_repository_owner_raw(plan, extra_data)`;
`account_username` is `self.account.username`. -/
def _get_repository_owner_raw (account_username : String) (plan : String)
    (extra_data : String → Option String) : Except PlanErr String :=
  if plan = "personal" then .ok account_username
  else if plan = "team" then extraDataItem extra_data "bitbucket_team_name"
  else if plan = "other-user" then extraDataItem extra_data "bitbucket_other_user_username"
  else .error (.invalidPlanError plan)

/-! ### URL building, commits and branches -/

/-- The embedded `Bitbucket._build_api_url(url, version)`. -/
def _build_api_url (version url : String) : String :=
  "https://bitbucket.org/api/" ++ version ++ "/" ++ url

/-- The embedded `Bitbucket._build_repository_api_url(repository, url, version)`, with the
repository's owner and name already resolved. -/
def _build_repository_api_url (version owner repo_name url : String) : String :=
  _build_api_url version ("repositories/" ++ owner ++ "/" ++ repo_name ++ "/" ++ url)

/-- The embedded `Bitbucket._parse_timestamp(timestamp)`: replace the space with a literal
T to make the timestamp ISO 8601. -/
def _parse_timestamp (timestamp : String) : String :=
  timestamp.replace " " "T"

/-- Python `a or b` on optional strings (`None` and `''` are falsy). -/
def pyOrStr (a b : Option String) : Option String :=
  match a with
  | some s => if s = "" then b else some s
  | none => b

/-- One changeset of the Bitbucket `changesets` API response, with the fields
`get_commits` reads. -/
structure Changeset where
  author : String
  raw_node : String
  utctimestamp : String
  message : String
  parents : List String
  deriving BEq, DecidableEq

/-- The internal `Commit` domain object (`reviewboard.scmtools.core`), with
`none` standing for an unset `parent`/`diff`. -/
structure Commit where
  author_name : String
  id : String
  date : String
  message : String
  parent : Option String
  diff : Option String
  deriving BEq, DecidableEq

/-- The URL `get_commits` requests: `changesets/?limit=20`, with
`&start=<start or branch>` appended when that value is truthy. -/
def get_commits_url (owner repo_name : String) (branch start : Option String) : String :=
  let url := _build_repository_api_url "1.0" owner repo_name "changesets/?limit=20"
  match pyOrStr start branch with
  | some s => if s = "" then url else url ++ "&start=" ++ s
  | none => url

/-- The response processing of `Bitbucket.get_commits`: the API returns the
changesets from oldest to newest and the loop walks them reversed, building a
`Commit` from each changeset's fields (`parent` is set only when the
changeset has parents). -/
def get_commits (rsp_changesets : List Changeset) : List Commit :=
  rsp_changesets.reverse.map (fun changeset =>
    { author_name := changeset.author,
      id := changeset.raw_node,
      date := _parse_timestamp changeset.utctimestamp,
      message := changeset.message,
      parent := changeset.parents.head?,
      diff := none })

/-- The internal `Branch` domain object. -/
structure Branch where
  id : String
  commit : String
  default : Bool
  deriving BEq, DecidableEq

/-- The `main-branch/` API response read by `_get_default_branch_name`. -/
structure MainBranchRsp where
  name : String
  deriving BEq, DecidableEq

/-- One entry of the `branches/` API response, with the field
`get_branches` reads. -/
structure BranchInfo where
  raw_node : String
  deriving BEq, DecidableEq

/-- The embedded `Bitbucket._get_default_branch_name(repository)`: the `name` field of the
`main-branch/` endpoint's response. -/
def _get_default_branch_name (rsp : MainBranchRsp) : String :=
  rsp.name

/-- The response processing of `Bitbucket.get_branches`: one `Branch` per
item of the `branches/` response dict (embedded as an association list in
iteration order), marked default exactly when its name equals the default
branch name. -/
def get_branches (main_branch_rsp : MainBranchRsp)
    (rsp : List (String × BranchInfo)) : List Branch :=
  let default_branch_name := _get_default_branch_name main_branch_rsp
  rsp.map (fun p =>
    { id := p.1, commit := p.2.raw_node, default := p.1 == default_branch_name })

/-! ### `_api_get`, `_check_api_error` and the source-file accessors -/

/-- The outcome of `self.client.http_get(url, ...)`: the raw response data,
an `HTTPError` carrying its status code and body (`e.code`, `e.read()`), or a
`URLError`. -/
inductive HttpGetOutcome where
  | ok : String → HttpGetOutcome
  | httpError : Int → String → HttpGetOutcome
  | urlError : HttpGetOutcome
  deriving BEq

/-- An exception escaping `_api_get` (and the methods built on it). -/
inductive ApiErr where
  | urlError : ApiErr
  | authorizationError : String → ApiErr
  | hostingServiceError : String → Int → ApiErr
  | fileNotFoundError : String → Option String → Option String → Option String → ApiErr
  | pyError : PyErr → ApiErr
  deriving BEq

/-- The default message of `_raise_auth_error`. -/
def bitbucketAuthErrorDefault : String :=
  "Invalid Bitbucket username or password. Make sure " ++
  "you are using your Bitbucket username and not e-mail " ++
  "address, and are using an app password if two-factor " ++
  "authentication is enabled."

/-- The embedded `Bitbucket._raise_auth_error(message)`, where the argument is the
(possibly falsy) Python value `_check_api_error` passes: `message or
<default>`. -/
def _raise_auth_error (message : JValue) : ApiErr :=
  .authorizationError (if truthy message then pyStr message else bitbucketAuthErrorDefault)

/-- The body of `_check_api_error` that extracts the message from the error
response: `message = data`, replaced by `rsp['error']['message']` when the
parsed body is truthy and has that nested field. -/
def apiErrorMessage (rsp : Option JValue) (data : String) : Except PyErr JValue := do
  let message : JValue := .str data
  match rsp with
  | none => pure message
  | some r =>
      if truthy r then do
        let hasError ← py_in "error" r
        if hasError then do
          let error ← py_getitem r "error"
          let hasMessage ← py_in "message" error
          if hasMessage then py_getitem error "message"
          else pure message
        else pure message
      else pure message

/-- The embedded `Bitbucket._check_api_error(e)` for an `HTTPError` with status `code` and
body `data`: decides which exception to raise.  `jloads` is the external
`json.loads`, returning `none` on any parse failure (the bare `except`). -/
def _check_api_error (jloads : String → Option JValue) (code : Int) (data : String) :
    Except PyErr ApiErr := do
  let rsp : Option JValue := jloads data
  let message0 ← apiErrorMessage rsp data
  let message : JValue :=
    if truthy message0 then .str (pyStr message0) else message0
  if code == 401 then
    pure (_raise_auth_error message)
  else if code == 404 then do
    let isRepo ← py_startswith message "Repository"
    if isRepo then pure (.hostingServiceError (pyStr message) code)
    else pure (.fileNotFoundError "" none none none)
  else
    pure (.hostingServiceError
      (if truthy message then pyStr message
       else "Unexpected HTTP " ++ toString code ++ " error when talking to Bitbucket")
      code)

/-- The embedded `Bitbucket._api_get(url, raw_content=True)`: the raw data on success;
`HTTPError`s are converted by `_check_api_error` (which always raises),
`URLError`s propagate. -/
def _api_get (jloads : String → Option JValue) (http_get : String → HttpGetOutcome)
    (url : String) : Except ApiErr String :=
  match http_get url with
  | .ok data => .ok data
  | .urlError => .error .urlError
  | .httpError code data =>
      match _check_api_error jloads code data with
      | .ok e => .error e
      | .error pe => .error (.pyError pe)

/-- The detail message of the `FileNotFoundError` raised by `_api_get_src`
for a Git repository with no base commit ID. -/
def gitRevisionDetail : String :=
  "The necessary revision information needed to find " ++
  "this file was not provided. Use RBTools 0.5.2 or " ++
  "newer."

/-- The result of `_api_get_src`: the value returned or the exception raised,
together with the URL of the API request performed, when one was (`none`
records that no request was made). -/
structure SrcResult where
  result : Except ApiErr String
  requestedUrl : Option String

/-- The fetch half of `_api_get_src`, once the effective revision is known:
builds the `raw/` URL with `urllib.quote` (an external utility, taken as a
parameter) and re-raises any `FileNotFoundError` with the path, the effective
revision and the base commit ID filled in. -/
def apiGetSrcFetch (jloads : String → Option JValue) (http_get : String → HttpGetOutcome)
    (quote : String → String) (owner repo_name path : String)
    (revision : String) (base_commit_id : Option String) : SrcResult :=
  let url := _build_api_url "1.0"
    ("repositories/" ++ quote owner ++ "/" ++ quote repo_name ++ "/raw/" ++
     quote revision ++ "/" ++ quote path)
  match _api_get jloads http_get url with
  | .ok data => ⟨.ok data, some url⟩
  | .error (.fileNotFoundError _ _ _ _) =>
      ⟨.error (.fileNotFoundError path (some revision) base_commit_id none), some url⟩
  | .error e => ⟨.error e, some url⟩

/-- The embedded `Bitbucket._api_get_src(repository, path, revision, base_commit_id)`:
uses the base commit ID in place of the revision when one is provided
(Python truthiness: `None` and `''` do not count), raises
`FileNotFoundError` without any API request when it is absent and the
repository's tool is Git, and otherwise fetches the file contents. -/
def _api_get_src (jloads : String → Option JValue) (http_get : String → HttpGetOutcome)
    (quote : String → String) (tool_name owner repo_name path revision : String)
    (base_commit_id : Option String) : SrcResult :=
  match pyOrStr base_commit_id none with
  | some b => apiGetSrcFetch jloads http_get quote owner repo_name path b base_commit_id
  | none =>
      if tool_name = "Git" then
        ⟨.error (.fileNotFoundError path (some revision) none (some gitRevisionDetail)),
         none⟩
      else
        apiGetSrcFetch jloads http_get quote owner repo_name path revision base_commit_id

/-- The embedded `Bitbucket.get_file(...)`: returns the fetched contents, turning
`URLError`/`HTTPError` into `FileNotFoundError(path, revision)` (raw
`HTTPError`s never actually reach this handler: `_api_get` converts them
first).  The second component records the API request performed, if any. -/
def get_file (jloads : String → Option JValue) (http_get : String → HttpGetOutcome)
    (quote : String → String) (tool_name owner repo_name path revision : String)
    (base_commit_id : Option String) : Except ApiErr String × Option String :=
  let r := _api_get_src jloads http_get quote tool_name owner repo_name path revision
    base_commit_id
  (match r.result with
   | .ok data => .ok data
   | .error .urlError => .error (.fileNotFoundError path (some revision) none none)
   | .error e => .error e,
   r.requestedUrl)

/-- The embedded `Bitbucket.get_file_exists(...)`: `True` on a successful fetch, `False`
on `URLError`/`HTTPError`/`FileNotFoundError`; other exceptions propagate.
The second component records the API request performed, if any. -/
def get_file_exists (jloads : String → Option JValue) (http_get : String → HttpGetOutcome)
    (quote : String → String) (tool_name owner repo_name path revision : String)
    (base_commit_id : Option String) : Except ApiErr Bool × Option String :=
  let r := _api_get_src jloads http_get quote tool_name owner repo_name path revision
    base_commit_id
  (match r.result with
   | .ok _ => .ok true
   | .error .urlError => .ok false
   | .error (.fileNotFoundError _ _ _ _) => .ok false
   | .error e => .error e,
   r.requestedUrl)

/-! ### `Bitbucket.get_change` -/

/-- Python `diff.endswith(b'\n')` for the byte string `diff`: whether the
last byte is a newline, modelled on the character data of the embedded
string. -/
def pyEndsWithNewline (s : String) : Bool :=
  s.data.getLast? == some (Char.ofNat 10)

/-- An exception escaping `get_change`: the `IndexError` of `[0]` on an empty
`get_commits` result, or an error of the diff API request. -/
inductive ChangeErr where
  | indexError : ChangeErr
  | apiError : ApiErr → ChangeErr
  deriving BEq

/-- The embedded `Bitbucket.get_change(repository, revision)`: takes the commit metadata
from the cache (`cached`, the external `cache.get` result) or, on a miss,
from the first commit `get_commits` builds for the revision; fetches the raw
diff (`diff_outcome`, the `_api_get(..., raw_content=True)` result for the
`diff/<revision>` URL) and appends a trailing newline when the diff lacks
one. -/
def get_change (cached : Option Commit) (rsp_changesets : List Changeset)
    (diff_outcome : Except ApiErr String) : Except ChangeErr Commit := do
  let commit ←
    match cached with
    | some c => pure c
    | none =>
        match (get_commits rsp_changesets).head? with
        | some c => pure c
        | none => Except.error ChangeErr.indexError
  let diff ←
    match diff_outcome with
    | .ok d => pure d
    | .error e => Except.error (ChangeErr.apiError e)
  let diff := if pyEndsWithNewline diff then diff else diff ++ "\n"
  pure { author_name := commit.author_name,
         id := commit.id,
         date := commit.date,
         message := commit.message,
         parent := commit.parent,
         diff := some diff }

/-! ### `ReviewRequestDataGrid.load_extra_state` -/

/-- A review request row, with the two fields the grid's extra-state
filtering reads. -/
structure ReviewRequestRow where
  status : String
  local_site : Option String
  deriving BEq, DecidableEq

/-- The grid state `load_extra_state` works on: the current `show_closed`
flag (initialised to `True` by `ReviewRequestDataGrid.__init__`), the grid's
local site and the queryset, embedded as the list of rows it would
produce. -/
structure GridState where
  show_closed : Bool
  local_site : Option String
  queryset : List ReviewRequestRow
  deriving BEq, DecidableEq

/-- The embedded `ReviewRequestDataGrid.load_extra_state(profile)`.  `pyint` is the
external `int()` builtin on strings, `none` on `ValueError`; `profile` is the
profile's `show_closed` field when a profile is present;
`show_closed_param` is the `show-closed` URL parameter.  Returns the updated
grid state, the profile's `show_closed` field afterwards, and the method's
return value.  When the parameter is absent, `int()` is applied to the
default `self.show_closed`, a `bool`, so the flag is unchanged. -/
def load_extra_state (pyint : String → Option Int) (profile : Option Bool)
    (show_closed_param : Option String) (g : GridState) :
    GridState × Option Bool × Bool :=
  let sc0 := match profile with
    | some p => p
    | none => g.show_closed
  let sc1 := match show_closed_param with
    | none => sc0
    | some s =>
        match pyint s with
        | some n => decide (n ≠ 0)
        | none => sc0
  let qs1 := if sc1 then g.queryset else g.queryset.filter (fun r => r.status == "P")
  let qs2 := qs1.filter (fun r => r.local_site == g.local_site)
  let g2 : GridState := { g with show_closed := sc1, queryset := qs2 }
  match profile with
  | some p => if sc1 != p then (g2, some sc1, true) else (g2, some p, false)
  | none => (g2, none, false)

/-! ### Specification-side definitions for the webhook map -/

/-- A well-formed webhook commit: a JSON object whose `raw_node` is a string
and whose `branch` is a string (possibly empty, i.e. effectively absent). -/
structure WfCommit where
  raw_node : String
  message : JValue
  branch : String

/-- The JSON object a well-formed webhook commit stands for. -/
def encodeCommit (c : WfCommit) : JValue :=
  .obj [("raw_node", .str c.raw_node), ("message", c.message), ("branch", .str c.branch)]

/-- One commit's contribution to the map, as the claim states it: a commit
with a non-empty branch appends `<branch> (<first 7 characters of the
hash>)` under the review request ID extracted from its message; a commit
with no branch contributes nothing. -/
def specCommitStep (grri : JValue → JValue → Option Nat)
    (m : List (Option Nat × List String)) (c : WfCommit) :
    List (Option Nat × List String) :=
  if c.branch = "" then m
  else
    appendEntry m (grri c.message (.str c.raw_node))
      (c.branch ++ " (" ++ c.raw_node.take 7 ++ ")")

/-- The whole map, as the claim states it, over well-formed commits. -/
def specCommitsMap (grri : JValue → JValue → Option Nat) (cs : List WfCommit) :
    List (Option Nat × List String) :=
  cs.foldl (specCommitStep grri) []

lemma processCommits_encode (grri : JValue → JValue → Option Nat)
    (cs : List WfCommit) (acc : List (Option Nat × List String)) :
    processCommits grri (cs.map encodeCommit) acc =
      .ok (cs.foldl (specCommitStep grri) acc) := by
  induction cs generalizing acc with
  | nil => rfl
  | cons c cs ih =>
      have step : processCommits grri (encodeCommit c :: cs.map encodeCommit) acc =
          if truthy (.str c.branch) then
            processCommits grri (cs.map encodeCommit)
              (appendEntry acc (grri c.message (.str c.raw_node))
                (c.branch ++ " (" ++ c.raw_node.take 7 ++ ")"))
          else
            processCommits grri (cs.map encodeCommit) acc := rfl
      by_cases hb : c.branch = ""
      · simp only [List.map_cons, step, truthy, hb, List.foldl_cons, specCommitStep,
          if_pos rfl]
        simpa using ih acc
      · have ht : truthy (.str c.branch) = true := by
          simp [truthy, hb]
        simp only [List.map_cons, step, ht, if_true, List.foldl_cons, specCommitStep,
          if_neg hb]
        exact ih _

/-! ### Claims about the webhook view -/

/-- C1 (counterexample): the body `[]` is valid JSON, but on it the handler
raises `AttributeError` (`payload.get` on a list), which Django surfaces as a
500 server error, not the HTTP 200 response the claim promises. -/
theorem c1_counterexample :
    post_receive_hook_close_submitted
        (fun s => if s = "[]" then some (.arr []) else none)
        (fun _ _ => none) (some "[]") =
      ⟨.serverError .attributeError, none⟩ ∧
    (post_receive_hook_close_submitted
        (fun s => if s = "[]" then some (.arr []) else none)
        (fun _ _ => none) (some "[]")).response ≠ .ok := by
  exact ⟨rfl, by decide⟩

/-- C1 (amended): for every POST whose `payload` field holds valid JSON on
which the review-request map construction raises no exception, the handler
builds the map, calls `close_all_review_requests` with it exactly when it is
non-empty, and returns an HTTP 200 response. -/
theorem c1_hook_closes_and_returns_200 (jloads : String → Option JValue)
    (grri : JValue → JValue → Option Nat) (s : String) (payload : JValue)
    (m : List (Option Nat × List String))
    (h1 : jloads s = some payload)
    (h2 : _get_review_request_id_to_commits_map grri payload = .ok m) :
    (post_receive_hook_close_submitted jloads grri (some s)).response = .ok ∧
    (post_receive_hook_close_submitted jloads grri (some s)).closedCalls =
      (if m.isEmpty then none else some m) := by
  have h3 : post_receive_hook_close_submitted jloads grri (some s) =
      if m.isEmpty then ⟨.ok, none⟩ else ⟨.ok, some m⟩ := by
    unfold post_receive_hook_close_submitted
    simp only [h1, h2]
  constructor
  · rw [h3]
    by_cases hm : m.isEmpty <;> simp [hm]
  · rw [h3]
    by_cases hm : m.isEmpty <;> simp [hm]

/-- C1 (witness): a one-commit payload closes review request 42 and the
handler answers 200. -/
theorem c1_hook_witness :
    (post_receive_hook_close_submitted
        (fun t => if t = "p" then
          some (.obj [("commits", .arr [.obj [("raw_node", .str "abcdef0123"),
            ("message", .str "Reviewed"), ("branch", .str "trunk")]])])
          else none)
        (fun _ _ => some 42) (some "p")).response = .ok ∧
    (post_receive_hook_close_submitted
        (fun t => if t = "p" then
          some (.obj [("commits", .arr [.obj [("raw_node", .str "abcdef0123"),
            ("message", .str "Reviewed"), ("branch", .str "trunk")]])])
          else none)
        (fun _ _ => some 42) (some "p")).closedCalls =
      some [(some 42, ["trunk (abcdef0)"])] := by
  have h := c1_hook_closes_and_returns_200
    (fun t => if t = "p" then
      some (.obj [("commits", .arr [.obj [("raw_node", .str "abcdef0123"),
        ("message", .str "Reviewed"), ("branch", .str "trunk")]])])
      else none)
    (fun _ _ => some 42) "p"
    (.obj [("commits", .arr [.obj [("raw_node", .str "abcdef0123"),
      ("message", .str "Reviewed"), ("branch", .str "trunk")]])])
    [(some 42, ["trunk (abcdef0)"])] rfl rfl
  exact ⟨h.1, h.2.trans rfl⟩

/-- C2 (counterexample): on the payload
`{"commits": [{"branch": "trunk"}]}` the commit has a non-empty branch but no
`raw_node`, so `None[:7]` raises `TypeError` and no dictionary is returned at
all, where the claim promises an entry for this commit. -/
theorem c2_counterexample :
    _get_review_request_id_to_commits_map (fun _ _ => none)
        (.obj [("commits", .arr [.obj [("branch", .str "trunk")]])]) =
      .error .typeError := rfl

/-- C2 (amended): for every payload that is a JSON object whose `commits`
entry is a list of objects with string `raw_node` and `branch` fields, the
returned map gets, from each commit with a non-empty branch, exactly one
entry `<branch> (<first 7 characters of the hash>)` appended under the
review request ID extracted from its message (`none` for the key `None`),
and nothing from commits with an empty branch. -/
theorem c2_commits_map_spec (grri : JValue → JValue → Option Nat)
    (kvs : List (String × JValue)) (cs : List WfCommit)
    (h : kvs.reverse.lookup "commits" = some (.arr (cs.map encodeCommit))) :
    _get_review_request_id_to_commits_map grri (.obj kvs) =
      .ok (specCommitsMap grri cs) := by
  unfold _get_review_request_id_to_commits_map
  have h1 : py_getD (.obj kvs) "commits" (.arr []) =
      .ok (.arr (cs.map encodeCommit)) := by
    simp [py_getD, h]
  rw [h1]
  exact processCommits_encode grri cs []

/-- C2 (witness): two commits, one with a branch and one without; only the
first contributes, under the key `None`. -/
theorem c2_commits_map_witness :
    _get_review_request_id_to_commits_map (fun _ _ => none)
        (.obj [("commits", .arr
          [encodeCommit ⟨"abcdef0123", .str "m1", "trunk"⟩,
           encodeCommit ⟨"ffffff9999", .str "m2", ""⟩])]) =
      .ok [(none, ["trunk (abcdef0)"])] := by
  have h := c2_commits_map_spec (fun _ _ => none)
    [("commits", .arr
      [encodeCommit ⟨"abcdef0123", .str "m1", "trunk"⟩,
       encodeCommit ⟨"ffffff9999", .str "m2", ""⟩])]
    [⟨"abcdef0123", .str "m1", "trunk"⟩, ⟨"ffffff9999", .str "m2", ""⟩] rfl
  exact h.trans rfl

/-- C7: a POST without a `payload` field gets a 400 response with body
`Missing payload`; a POST whose `payload` is not valid JSON gets a 400
response with body `Invalid payload format`; in both cases
`close_all_review_requests` is not called. -/
theorem c7_hook_bad_request (jloads : String → Option JValue)
    (grri : JValue → JValue → Option Nat) (s : String) (h : jloads s = none) :
    post_receive_hook_close_submitted jloads grri none =
      ⟨.badRequest "Missing payload", none⟩ ∧
    post_receive_hook_close_submitted jloads grri (some s) =
      ⟨.badRequest "Invalid payload format", none⟩ := by
  refine ⟨rfl, ?_⟩
  unfold post_receive_hook_close_submitted
  simp only [h]

/-- C7 (witness): a parser that rejects everything yields both 400
responses. -/
theorem c7_hook_bad_request_witness :
    post_receive_hook_close_submitted (fun _ => none) (fun _ _ => none) none =
      ⟨.badRequest "Missing payload", none⟩ ∧
    post_receive_hook_close_submitted (fun _ => none) (fun _ _ => none)
        (some "not json") =
      ⟨.badRequest "Invalid payload format", none⟩ :=
  c7_hook_bad_request (fun _ => none) (fun _ _ => none) "not json" rfl

/-! ### Claim about `authorize` -/

/-- C3: `authorize` stores the encrypted password and saves the account only
when the test API request succeeds; on any failure the freshly stored
password is deleted again before the exception propagates, the persisted
credentials are unchanged, and a `HostingServiceError` with HTTP code 401 or
403 is replaced by an `AuthorizationError`. -/
theorem c3_authorize_atomic (encrypt : String → String) (password : String)
    (acct : Account) (code : Option Int) (outcome : AuthTryOutcome) :
    authorize encrypt .success password acct =
      ({ acct with data_password := some (encrypt password),
                   saved_password := some (encrypt password) }, .ok) ∧
    authorize encrypt (.hostingServiceErrorRaised code) password acct =
      ({ acct with data_password := none },
       if code = some 401 ∨ code = some 403 then .authorizationError
       else .hostingServiceError code) ∧
    authorize encrypt .otherExceptionRaised password acct =
      ({ acct with data_password := none }, .otherException) ∧
    ((authorize encrypt outcome password acct).2 = .ok ↔ outcome = .success) ∧
    (outcome ≠ .success →
      (authorize encrypt outcome password acct).1.saved_password =
        acct.saved_password ∧
      (authorize encrypt outcome password acct).1.data_password = none) := by
  refine ⟨rfl, ?_, rfl, ?_, ?_⟩
  · by_cases hc : code = some 401 ∨ code = some 403 <;> simp [authorize, hc]
  · cases outcome with
    | success => simp [authorize]
    | hostingServiceErrorRaised c =>
        by_cases hc : c = some 401 ∨ c = some 403 <;> simp [authorize, hc]
    | otherExceptionRaised => simp [authorize]
  · intro hne
    cases outcome with
    | success => exact absurd rfl hne
    | hostingServiceErrorRaised c =>
        by_cases hc : c = some 401 ∨ c = some 403 <;> simp [authorize, hc]
    | otherExceptionRaised => simp [authorize]

/-- C3 (witness): a 401 `HostingServiceError` on an account with persisted
credentials: the in-memory password is gone, the persisted one untouched,
and an `AuthorizationError` is raised. -/
theorem c3_authorize_witness :
    authorize (fun s => "enc:" ++ s) (.hostingServiceErrorRaised (some 401)) "pw"
        ⟨some "old", some "old"⟩ =
      ({ data_password := none, saved_password := some "old" },
       .authorizationError) ∧
    (authorize (fun s => "enc:" ++ s) (.hostingServiceErrorRaised (some 401)) "pw"
        ⟨some "old", some "old"⟩).1.saved_password = some "old" := by
  have h := c3_authorize_atomic (fun s => "enc:" ++ s) "pw" ⟨some "old", some "old"⟩
    (some 401) (.hostingServiceErrorRaised (some 401))
  refine ⟨h.2.1.trans (by norm_num), (h.2.2.2.2 (by decide)).1⟩

/-! ### Claim about the per-plan helpers -/

/-- C4: every plan other than `personal`, `team` and `other-user` makes both
`_raw` helpers raise `InvalidPlanError`; the owner is the account username
for `personal` and is read from the repository's extra data for `team` and
`other-user`. -/
theorem c4_plan_dispatch (username plan : String)
    (extra_data : String → Option String)
    (h1 : plan ≠ "personal") (h2 : plan ≠ "team") (h3 : plan ≠ "other-user") :
    _get_repository_name_raw plan extra_data =
      .error (.invalidPlanError plan) ∧
    _get_repository_owner_raw username plan extra_data =
      .error (.invalidPlanError plan) ∧
    _get_repository_owner_raw username "personal" extra_data = .ok username ∧
    _get_repository_owner_raw username "team" extra_data =
      extraDataItem extra_data "bitbucket_team_name" ∧
    _get_repository_owner_raw username "other-user" extra_data =
      extraDataItem extra_data "bitbucket_other_user_username" := by
  refine ⟨?_, ?_, rfl, rfl, rfl⟩
  · simp [_get_repository_name_raw, h1, h2, h3]
  · simp [_get_repository_owner_raw, h1, h2, h3]

/-- C4 (witness): the unknown plan `enterprise` raises `InvalidPlanError`
from both helpers. -/
theorem c4_plan_dispatch_witness :
    _get_repository_name_raw "enterprise" (fun _ => none) =
      .error (.invalidPlanError "enterprise") ∧
    _get_repository_owner_raw "alice" "enterprise" (fun _ => none) =
      .error (.invalidPlanError "enterprise") := by
  have h := c4_plan_dispatch "alice" "enterprise" (fun _ => none)
    (by decide) (by decide) (by decide)
  exact ⟨h.1, h.2.1⟩

/-! ### Claim about `get_commits` -/

/-- C5: `get_commits` requests `changesets/?limit=20` (at most 20
changesets), maps each changeset to a `Commit` built from its `raw_node`,
`author`, parsed `utctimestamp`, `message` and first parent (when any), and
returns the commits in the reverse of the API's oldest-to-newest order. -/
theorem c5_get_commits_spec (rsp : List Changeset) (owner repo_name : String)
    (branch start : Option String) :
    get_commits rsp =
      (rsp.map (fun changeset =>
        { author_name := changeset.author,
          id := changeset.raw_node,
          date := _parse_timestamp changeset.utctimestamp,
          message := changeset.message,
          parent := changeset.parents.head?,
          diff := none })).reverse ∧
    ∃ suffix, get_commits_url owner repo_name branch start =
      _build_repository_api_url "1.0" owner repo_name "changesets/?limit=20" ++
        suffix := by
  refine ⟨?_, ?_⟩
  · simp [get_commits]
  · unfold get_commits_url
    cases h : pyOrStr start branch with
    | none => exact ⟨"", (String.append_empty _).symm⟩
    | some s =>
        by_cases hs : s = ""
        · simp only [hs, if_pos rfl]
          exact ⟨"", (String.append_empty _).symm⟩
        · simp only [if_neg hs]
          exact ⟨"&start=" ++ s, by rw [String.append_assoc]⟩

/-! ### Claim about `get_branches` -/

/-- C6: `get_branches` yields exactly one `Branch` per entry of the
`branches/` response, with `id` the branch name, `commit` the entry's
`raw_node`, and `default` true exactly when the name equals the default
branch name obtained from the `main-branch/` endpoint. -/
theorem c6_get_branches_spec (main_branch_rsp : MainBranchRsp)
    (rsp : List (String × BranchInfo)) :
    (get_branches main_branch_rsp rsp).length = rsp.length ∧
    ∀ i (h1 : i < (get_branches main_branch_rsp rsp).length)
        (h2 : i < rsp.length),
      ((get_branches main_branch_rsp rsp).get ⟨i, h1⟩).id =
        (rsp.get ⟨i, h2⟩).1 ∧
      ((get_branches main_branch_rsp rsp).get ⟨i, h1⟩).commit =
        (rsp.get ⟨i, h2⟩).2.raw_node ∧
      (((get_branches main_branch_rsp rsp).get ⟨i, h1⟩).default = true ↔
        (rsp.get ⟨i, h2⟩).1 = _get_default_branch_name main_branch_rsp) := by
  refine ⟨by simp [get_branches], ?_⟩
  intro i h1 h2
  have hg : (get_branches main_branch_rsp rsp).get ⟨i, h1⟩ =
      { id := (rsp.get ⟨i, h2⟩).1,
        commit := (rsp.get ⟨i, h2⟩).2.raw_node,
        default := (rsp.get ⟨i, h2⟩).1 == _get_default_branch_name main_branch_rsp } := by
    simp [get_branches]
  rw [hg]
  exact ⟨rfl, rfl, beq_iff_eq⟩

/-- C6 (witness): two branches with default branch `main`: the first is
default, the second is not, and names and commits are copied. -/
theorem c6_get_branches_witness :
    ((get_branches ⟨"main"⟩ [("main", ⟨"aaa"⟩), ("dev", ⟨"bbb"⟩)]).get
        ⟨0, by decide⟩).default = true ∧
    ((get_branches ⟨"main"⟩ [("main", ⟨"aaa"⟩), ("dev", ⟨"bbb"⟩)]).get
        ⟨1, by decide⟩).id = "dev" ∧
    ((get_branches ⟨"main"⟩ [("main", ⟨"aaa"⟩), ("dev", ⟨"bbb"⟩)]).get
        ⟨1, by decide⟩).commit = "bbb" ∧
    ((get_branches ⟨"main"⟩ [("main", ⟨"aaa"⟩), ("dev", ⟨"bbb"⟩)]).get
        ⟨1, by decide⟩).default ≠ true := by
  have h0 := (c6_get_branches_spec ⟨"main"⟩
    [("main", ⟨"aaa"⟩), ("dev", ⟨"bbb"⟩)]).2 0 (by decide) (by decide)
  have h1 := (c6_get_branches_spec ⟨"main"⟩
    [("main", ⟨"aaa"⟩), ("dev", ⟨"bbb"⟩)]).2 1 (by decide) (by decide)
  refine ⟨h0.2.2.mpr rfl, h1.1, h1.2.1, fun hd => ?_⟩
  exact absurd (h1.2.2.mp hd) (by decide)

/-! ### Claim about `load_extra_state` -/

/-- The effective `show_closed` setting, as the claim states it: the
profile's value (falling back to the grid's current flag), overridden by a
`show-closed` URL parameter that parses as a non-zero / zero integer, with
unparsable values ignored. -/
def effectiveShowClosed (pyint : String → Option Int) (profile : Option Bool)
    (show_closed_param : Option String) (current : Bool) : Bool :=
  let base := match profile with
    | some p => p
    | none => current
  match show_closed_param with
  | none => base
  | some s =>
      match pyint s with
      | some n => decide (n ≠ 0)
      | none => base

lemma mem_filtered_queryset (g : GridState) (effb : Bool) (r : ReviewRequestRow) :
    (r ∈ (if effb then g.queryset
          else g.queryset.filter (fun r => r.status == "P")).filter
         (fun r => r.local_site == g.local_site)) ↔
      (r ∈ g.queryset ∧ r.local_site = g.local_site ∧
       (effb = false → r.status = "P")) := by
  cases effb <;> simp [List.mem_filter]

/-- C8: `ReviewRequestDataGrid.load_extra_state` filters the queryset to
status `P` exactly when the effective `show_closed` setting is false, always
additionally filters it to the grid's local site, and returns `True` exactly
when a profile is present and its `show_closed` value changed. -/
theorem c8_load_extra_state_spec (pyint : String → Option Int)
    (profile : Option Bool) (param : Option String) (g : GridState) :
    (∀ r, r ∈ (load_extra_state pyint profile param g).1.queryset ↔
       (r ∈ g.queryset ∧ r.local_site = g.local_site ∧
        (effectiveShowClosed pyint profile param g.show_closed = false →
          r.status = "P"))) ∧
    ((load_extra_state pyint profile param g).2.2 = true ↔
       ∃ p, profile = some p ∧
         effectiveShowClosed pyint profile param g.show_closed ≠ p) ∧
    (load_extra_state pyint profile param g).1.show_closed =
      effectiveShowClosed pyint profile param g.show_closed := by
  cases profile with
  | none =>
      refine ⟨fun r => mem_filtered_queryset g _ r, ?_, rfl⟩
      simp [load_extra_state]
  | some p =>
      have hl : load_extra_state pyint (some p) param g =
          (if effectiveShowClosed pyint (some p) param g.show_closed != p then
            ({ g with
                show_closed := effectiveShowClosed pyint (some p) param g.show_closed,
                queryset :=
                  (if effectiveShowClosed pyint (some p) param g.show_closed
                   then g.queryset
                   else g.queryset.filter (fun r => r.status == "P")).filter
                  (fun r => r.local_site == g.local_site) },
             some (effectiveShowClosed pyint (some p) param g.show_closed), true)
           else
            ({ g with
                show_closed := effectiveShowClosed pyint (some p) param g.show_closed,
                queryset :=
                  (if effectiveShowClosed pyint (some p) param g.show_closed
                   then g.queryset
                   else g.queryset.filter (fun r => r.status == "P")).filter
                  (fun r => r.local_site == g.local_site) },
             some p, false)) := rfl
      by_cases hb :
          (effectiveShowClosed pyint (some p) param g.show_closed != p) = true
      · have hne : effectiveShowClosed pyint (some p) param g.show_closed ≠ p :=
          bne_iff_ne.mp hb
        refine ⟨?_, ?_, ?_⟩
        · intro r
          rw [hl, if_pos hb]
          exact mem_filtered_queryset g _ r
        · rw [hl, if_pos hb]
          exact iff_of_true rfl ⟨p, rfl, hne⟩
        · rw [hl, if_pos hb]
      · have heq : effectiveShowClosed pyint (some p) param g.show_closed = p := by
          simpa using hb
        refine ⟨?_, ?_, ?_⟩
        · intro r
          rw [hl, if_neg hb]
          exact mem_filtered_queryset g _ r
        · rw [hl, if_neg hb]
          refine iff_of_false (by simp) ?_
          rintro ⟨p2, hp2, hne2⟩
          injection hp2 with hp2
          exact hne2 (hp2 ▸ heq)
        · rw [hl, if_neg hb]

/-- C8 (witness): profile says show closed, the URL says `show-closed=0`:
the submitted row is filtered out, the pending row stays, and the method
reports the profile change. -/
theorem c8_load_extra_state_witness :
    (load_extra_state (fun s => if s = "0" then some 0 else none) (some true)
        (some "0") ⟨true, none, [⟨"P", none⟩, ⟨"S", none⟩]⟩).2.2 = true ∧
    (⟨"P", none⟩ : ReviewRequestRow) ∈
      (load_extra_state (fun s => if s = "0" then some 0 else none) (some true)
        (some "0") ⟨true, none, [⟨"P", none⟩, ⟨"S", none⟩]⟩).1.queryset ∧
    (⟨"S", none⟩ : ReviewRequestRow) ∉
      (load_extra_state (fun s => if s = "0" then some 0 else none) (some true)
        (some "0") ⟨true, none, [⟨"P", none⟩, ⟨"S", none⟩]⟩).1.queryset := by
  have h := c8_load_extra_state_spec (fun s => if s = "0" then some 0 else none)
    (some true) (some "0") ⟨true, none, [⟨"P", none⟩, ⟨"S", none⟩]⟩
  refine ⟨h.2.1.mpr ⟨true, rfl, by decide⟩,
    (h.1 ⟨"P", none⟩).mpr ⟨by simp, rfl, fun _ => rfl⟩, fun hm => ?_⟩
  have := (h.1 ⟨"S", none⟩).mp hm
  exact absurd (this.2.2 (by decide)) (by decide)

/-! ### Claim about `get_file` / `get_file_exists` -/

/-- C9: for a Git repository and no base commit ID, `get_file` raises
`FileNotFoundError` with the revision-information detail message and
`get_file_exists` returns `False`, in both cases without performing any API
request; and in general `get_file_exists` never raises `URLError`,
`HTTPError` or `FileNotFoundError`: it returns `True` exactly when the
source fetch succeeds and `False` when one of those errors occurs. -/
theorem c9_get_file_exists_safe (jloads : String → Option JValue)
    (http_get : String → HttpGetOutcome) (quote : String → String)
    (owner repo_name path revision : String) (base_commit_id : Option String)
    (hbase : base_commit_id = none ∨ base_commit_id = some "") :
    get_file jloads http_get quote "Git" owner repo_name path revision
        base_commit_id =
      (.error (.fileNotFoundError path (some revision) none
        (some gitRevisionDetail)), none) ∧
    get_file_exists jloads http_get quote "Git" owner repo_name path revision
        base_commit_id = (.ok false, none) ∧
    (∀ tool base2 e,
      (get_file_exists jloads http_get quote tool owner repo_name path revision
        base2).1 = .error e →
      (∃ msg, e = .authorizationError msg) ∨
      (∃ msg c, e = .hostingServiceError msg c) ∨
      (∃ pe, e = .pyError pe)) ∧
    (∀ tool base2,
      (get_file_exists jloads http_get quote tool owner repo_name path revision
        base2).1 = .ok true ↔
      ∃ d, (_api_get_src jloads http_get quote tool owner repo_name path
        revision base2).result = .ok d) ∧
    (∀ tool base2 e,
      (_api_get_src jloads http_get quote tool owner repo_name path revision
        base2).result = .error e →
      (e = .urlError ∨ ∃ p rv b dd, e = .fileNotFoundError p rv b dd) →
      (get_file_exists jloads http_get quote tool owner repo_name path revision
        base2).1 = .ok false) := by
  have hgit : _api_get_src jloads http_get quote "Git" owner repo_name path
      revision base_commit_id =
      ⟨.error (.fileNotFoundError path (some revision) none
        (some gitRevisionDetail)), none⟩ := by
    rcases hbase with h | h <;> subst h <;> rfl
  refine ⟨?_, ?_, ?_, ?_, ?_⟩
  · unfold get_file
    rw [hgit]
  · unfold get_file_exists
    rw [hgit]
  · intro tool base2 e he
    rcases hS : _api_get_src jloads http_get quote tool owner repo_name path
        revision base2 with ⟨res, url⟩
    simp only [get_file_exists, hS] at he
    cases res with
    | ok d2 => exact absurd he (by simp)
    | error e2 =>
        cases e2 with
        | urlError => exact absurd he (by simp)
        | authorizationError msg =>
            injection he with h2
            exact Or.inl ⟨msg, h2.symm⟩
        | hostingServiceError msg c =>
            injection he with h2
            exact Or.inr (Or.inl ⟨msg, c, h2.symm⟩)
        | fileNotFoundError p rv b dd => exact absurd he (by simp)
        | pyError pe =>
            injection he with h2
            exact Or.inr (Or.inr ⟨pe, h2.symm⟩)
  · intro tool base2
    rcases hS : _api_get_src jloads http_get quote tool owner repo_name path
        revision base2 with ⟨res, url⟩
    simp only [get_file_exists, hS]
    cases res with
    | ok d2 => exact iff_of_true rfl ⟨d2, rfl⟩
    | error e2 =>
        refine iff_of_false ?_ ?_
        · cases e2 <;> simp
        · rintro ⟨d2, hd⟩
          exact absurd hd (by simp)
  · intro tool base2 e he htriple
    rcases hS : _api_get_src jloads http_get quote tool owner repo_name path
        revision base2 with ⟨res, url⟩
    rw [hS] at he
    simp only at he
    rcases htriple with h | ⟨p, rv, b, dd, h⟩ <;> subst h <;>
      simp [get_file_exists, hS, he]

/-- C9 (witness): for a Git repository with no base commit ID, even with a
network that always fails, no request is made: `get_file` raises the
detailed `FileNotFoundError` and `get_file_exists` answers `False`. -/
theorem c9_get_file_exists_witness :
    get_file (fun _ => none) (fun _ => .urlError) (fun s => s) "Git" "alice"
        "repo" "src/a.txt" "tip" none =
      (.error (.fileNotFoundError "src/a.txt" (some "tip") none
        (some gitRevisionDetail)), none) ∧
    get_file_exists (fun _ => none) (fun _ => .urlError) (fun s => s) "Git"
        "alice" "repo" "src/a.txt" "tip" none = (.ok false, none) := by
  have h := c9_get_file_exists_safe (fun _ => none) (fun _ => .urlError)
    (fun s => s) "alice" "repo" "src/a.txt" "tip" none (Or.inl rfl)
  exact ⟨h.1, h.2.1⟩

/-! ### Claim about `get_change` -/

/-- C10: `get_change` returns a `Commit` whose metadata is exactly that of
the cached commit or, on a cache miss, of the first commit `get_commits`
returns for the revision, and whose diff is the fetched diff with a trailing
newline appended exactly when it lacks one (so the diff always ends with a
newline byte). -/
theorem c10_get_change_spec (cached : Option Commit) (rsp : List Changeset)
    (d : String) (c : Commit)
    (h : cached = some c ∨ (cached = none ∧ (get_commits rsp).head? = some c)) :
    get_change cached rsp (.ok d) =
      .ok { author_name := c.author_name, id := c.id, date := c.date,
            message := c.message, parent := c.parent,
            diff := some (if pyEndsWithNewline d then d else d ++ "\n") } ∧
    pyEndsWithNewline (if pyEndsWithNewline d then d else d ++ "\n") = true ∧
    (pyEndsWithNewline d = true →
      (if pyEndsWithNewline d then d else d ++ "\n") = d) := by
  refine ⟨?_, ?_, fun hd => if_pos hd⟩
  · rcases h with h | ⟨h1, h2⟩
    · subst h
      rfl
    · subst h1
      unfold get_change
      rw [h2]
      rfl
  · by_cases hd : pyEndsWithNewline d = true
    · rw [if_pos hd]
      exact hd
    · rw [if_neg hd]
      unfold pyEndsWithNewline
      have : (d ++ "\n").data = d.data ++ [Char.ofNat 10] := rfl
      rw [this, List.getLast?_concat]
      simp

/-- C10 (witness): a cached commit and a diff without a trailing newline:
the newline is appended and the metadata copied. -/
theorem c10_get_change_witness :
    get_change (some ⟨"alice", "rev1", "2015-01-01T00:00:00+0000", "msg",
        some "rev0", none⟩) [] (.ok "diff body") =
      .ok ⟨"alice", "rev1", "2015-01-01T00:00:00+0000", "msg", some "rev0",
        some "diff body\n"⟩ := by
  have h := c10_get_change_spec
    (some ⟨"alice", "rev1", "2015-01-01T00:00:00+0000", "msg", some "rev0",
      none⟩) [] "diff body"
    ⟨"alice", "rev1", "2015-01-01T00:00:00+0000", "msg", some "rev0", none⟩
    (Or.inl rfl)
  exact h.1.trans (by rfl)

end RB
